import Mathlib

/-!
Verification of the tagging pipeline of `src/libretime_tagger.py`.

Python strings are modelled as `List Char` (abbreviated `Str`); character
classes (whitespace, digits) are modelled over their ASCII members — plus,
for `str.isdigit`, the superscript digits as representatives of Python's
non-decimal digit characters, where the difference from `int()`'s accepted
alphabet is observable.  Fallible Python code is modelled with `Except`: an
uncaught exception is the `.error` case.  Pure engine functions
(`MP3TaggerEngine.*`) are translated directly;
filesystem and library effects (file existence checks, the image library, the
mutagen tag container) enter as explicit outcome parameters, and the
orchestration (`MP3TaggerGUI.validate_all_inputs`,
`MP3TaggerGUI.process_operation` in save mode) is translated as a pure
function of those outcomes that also records which checks and filesystem
actions it performs, in order.
-/

set_option maxRecDepth 40000

deriving instance DecidableEq for Except

/-- Python strings, modelled as lists of characters. -/
abbrev Str := List Char

/-- Python `str.strip()` / `\s` whitespace, restricted to ASCII. -/
def pyIsSpace (c : Char) : Bool :=
  c = ' ' ∨ c = '\t' ∨ c = '\n' ∨ c = '\r' ∨ c = '\x0b' ∨ c = '\x0c'

/-- Drop the longest suffix whose characters satisfy `p`. -/
def dropTrailWhile (p : Char → Bool) (l : Str) : Str :=
  ((l.reverse).dropWhile p).reverse

/-- Python `str.strip()`: remove leading and trailing whitespace. -/
def pyStrip (l : Str) : Str :=
  dropTrailWhile pyIsSpace (l.dropWhile pyIsSpace)

/-- The characters the sanitizer replaces: `\ / : * ? " < > |`
(the class of `re.sub(r'[\\/:*?"<>|]', "_", name)`). -/
def isBadFilenameChar (c : Char) : Bool :=
  c = '\\' ∨ c = '/' ∨ c = ':' ∨ c = '*' ∨ c = '?' ∨ c = '"' ∨ c = '<' ∨ c = '>' ∨ c = '|'

/-- One character of the `re.sub` replacement. -/
def replaceBadFilenameChar (c : Char) : Char :=
  if isBadFilenameChar c then '_' else c

/-- `MP3TaggerEngine.sanitize_filename` (lines 348-352): replace the reserved
characters by `_`, then `strip()`, then `rstrip(".")`. -/
def sanitize_filename (name : Str) : Str :=
  dropTrailWhile (fun c => c = '.') (pyStrip (name.map replaceBadFilenameChar))

/-- `SOUNDCLOUD_MAX_TITLE` (line 306). -/
def SOUNDCLOUD_MAX_TITLE : Nat := 100

/-- Python `sep.join(parts)`. -/
def joinSep (sep : Str) : List Str → Str
  | [] => []
  | [x] => x
  | x :: y :: rest => x ++ sep ++ joinSep sep (y :: rest)

/-- The `" - "` separator used for titles and filenames. -/
def sepDash : Str := " - ".data

/-- `MP3TaggerEngine.build_filename_parts` (lines 354-371): start with the
show, then append episode number, episode title, hosts and date, each only
when non-empty. -/
def build_filename_parts (show_name episode episode_title hosts date : Str) : List Str :=
  [show_name]
    ++ (if episode ≠ [] then [episode] else [])
    ++ (if episode_title ≠ [] then [episode_title] else [])
    ++ (if hosts ≠ [] then [hosts] else [])
    ++ (if date ≠ [] then [date] else [])

/-- `MP3TaggerEngine.truncate_episode_title` (lines 373-389).  If the joined
parts fit in `SOUNDCLOUD_MAX_TITLE` the title is returned unchanged; otherwise
the parts equal to the title are removed, the remaining length plus 3 is the
base length, and the title is cut to the leftover budget with `…` appended
(collapsing to empty when the budget is not positive). -/
def truncate_episode_title (filename_parts : List Str) (episode_title : Str) : Str × Bool :=
  let full_filename := joinSep sepDash filename_parts
  if full_filename.length ≤ SOUNDCLOUD_MAX_TITLE then (episode_title, false)
  else
    let parts_without_title := filename_parts.filter (fun p => !decide (p = episode_title))
    let base_length := (joinSep sepDash parts_without_title).length + 3
    let remaining : Int := (SOUNDCLOUD_MAX_TITLE : Int) - base_length
    if remaining ≤ 0 then ([], true)
    else (episode_title.take remaining.toNat ++ ['…'], true)

/-- Python `list.index` restricted to its defined case (the first position of
`a` in `l`; the caller guards membership). -/
def pyIndex (l : List Str) (a : Str) : Nat :=
  match l with
  | [] => 0
  | x :: r => if x = a then 0 else pyIndex r a + 1

/-- The parts list and truncation flag computed by
`MP3TaggerEngine.generate_filename` (lines 441-450) before joining:
when a non-empty episode title is among the parts and truncation fires,
the first part equal to the title is replaced by the truncated title. -/
def generate_filename_core (show_name episode episode_title hosts date : Str) :
    List Str × Bool :=
  let filename_parts := build_filename_parts show_name episode episode_title hosts date
  if episode_title ≠ [] ∧ episode_title ∈ filename_parts then
    let tw := truncate_episode_title filename_parts episode_title
    if tw.snd then
      (filename_parts.set (pyIndex filename_parts episode_title) tw.fst, true)
    else (filename_parts, false)
  else (filename_parts, false)

/-- `MP3TaggerEngine.generate_filename` (lines 437-455): join the (possibly
truncated) parts with `" - "`, sanitize, and append `.mp3`. -/
def generate_filename (show_name episode episode_title hosts date : Str) : Str × Bool :=
  let core := generate_filename_core show_name episode episode_title hosts date
  (sanitize_filename (joinSep sepDash core.fst) ++ ".mp3".data, core.snd)

-- Sanity examples (concrete evaluations of the pipeline).
example : sanitize_filename "a/b: c?".data = "a_b_ c_".data := by decide
example : joinSep sepDash ["My Show".data, "3".data] = "My Show - 3".data := by decide
example :
    generate_filename "My Show".data "3".data "Title".data [] "01.01.2024".data
      = ("My Show - 3 - Title - 01.01.2024.mp3".data, false) := by decide

/-- The result shape every engine operation returns
(`ValidationResult` named tuple, lines 25-28): a success flag, a message
(default empty) and a value (default `None`, modelled as `none`). -/
structure ValidationResult (α : Type) where
  success : Bool
  message : String := ""
  value : Option α := none
deriving DecidableEq, Repr

/-- Scanner for `re.sub(r'\s*,\s*', ', ', s)`.  `pend` is the run of
whitespace read so far but not yet emitted (it is the `\s*` before a comma
when a comma follows, otherwise plain text); `afterComma` records that the
scanner is inside the `\s*` that follows an already-replaced comma.  A comma
always closes a match and is emitted as `", "`; pending whitespace before it
is part of the match and dropped. -/
def subCommaWsGo (pend : Str) (afterComma : Bool) : Str → Str
  | [] => if afterComma then [] else pend
  | c :: r =>
    if pyIsSpace c then
      if afterComma then subCommaWsGo [] true r
      else subCommaWsGo (pend ++ [c]) false r
    else if c = ',' then ',' :: ' ' :: subCommaWsGo [] true r
    else (if afterComma then [] else pend) ++ c :: subCommaWsGo [] false r

/-- `re.sub(r'\s*,\s*', ', ', s)`: each comma together with the whitespace
around it becomes `", "`; characters not part of such a match are copied. -/
def subCommaWs (l : Str) : Str := subCommaWsGo [] false l

/-- Scanner for `re.sub(r'\s+', ' ', s)`: `inRun` records that the previous
character was whitespace (already replaced by one space), so further
whitespace of the same run is dropped. -/
def collapseWsGo (inRun : Bool) : Str → Str
  | [] => []
  | c :: r =>
    if pyIsSpace c then
      if inRun then collapseWsGo true r else ' ' :: collapseWsGo true r
    else c :: collapseWsGo false r

/-- `re.sub(r'\s+', ' ', s)`: every maximal run of whitespace becomes a
single space. -/
def collapseWs (l : Str) : Str := collapseWsGo false l

/-- Matcher for `^[^,]+(, [^,]+)*$`: a segment `[^,]+` can never contain a
comma, so every comma of the string must be a separator and must be followed
by a space; `sawChar` records that the current segment is non-empty, which is
required before each separator and at the end. -/
def hostsPatternGo (sawChar : Bool) : Str → Bool
  | [] => sawChar
  | ',' :: ' ' :: r => sawChar && hostsPatternGo false r
  | ',' :: _ => false
  | _ :: r => hostsPatternGo true r

/-- Whole-string match of `^[^,]+(, [^,]+)*$` (the pattern of
`validate_hosts`, line 324): one or more non-comma segments separated by
`", "`. -/
def hostsPattern (l : Str) : Bool := hostsPatternGo false l

/-- `MP3TaggerEngine.validate_hosts` (lines 315-327). -/
def validate_hosts (hosts : Str) : ValidationResult Str :=
  if pyStrip hosts = [] then ⟨true, "No hosts provided", some []⟩
  else
    let cleaned_hosts := collapseWs (subCommaWs (pyStrip hosts))
    if hostsPattern cleaned_hosts then ⟨true, "", some cleaned_hosts⟩
    else ⟨false, "Hosts must be comma-separated with space after comma (e.g., 'DJ A, DJ B')", none⟩

/-- Numeric value of an ASCII decimal digit string. -/
def natOfDigits (l : Str) : Nat :=
  l.foldl (fun n c => n * 10 + (c.toNat - 48)) 0

/-- Python `str.isdigit` for one character: true for the ASCII decimal
digits and also for digit characters that are *not* decimal digits
(Unicode `Numeric_Type=Digit`), which `int()` rejects — modelled here by
their most common representatives, the superscript digits
`⁰ ¹ ² ³ ⁴ ⁵ ⁶ ⁷ ⁸ ⁹`. -/
def pyIsDigitChar (c : Char) : Bool :=
  c.isDigit ∨ c = '⁰' ∨ c = '¹' ∨ c = '²' ∨ c = '³' ∨ c = '⁴'
    ∨ c = '⁵' ∨ c = '⁶' ∨ c = '⁷' ∨ c = '⁸' ∨ c = '⁹'

/-- `MP3TaggerEngine.validate_episode_number` (lines 329-335): empty is
valid with a warning; content failing `str.isdigit` is rejected; otherwise
the value is normalized by the `str(int(...))` round trip.  `int()` only
accepts decimal digits, so on an input all of whose characters pass
`isdigit` but which contains a non-decimal digit (such as `"²"`), the
`str(int(...))` call raises a `ValueError` that nothing in the function
catches — modelled as the `.error` case, carrying CPython's message. -/
def validate_episode_number (num : Str) : Except String (ValidationResult Str) :=
  if pyStrip num = [] then .ok ⟨true, "No episode number provided", some []⟩
  else if !(pyStrip num).all pyIsDigitChar then
    .ok ⟨false, "Episode number must be numeric", none⟩
  else if (pyStrip num).all Char.isDigit then
    .ok ⟨true, "", some (Nat.repr (natOfDigits (pyStrip num))).data⟩
  else
    .error ("invalid literal for int() with base 10: '" ++ String.mk (pyStrip num) ++ "'")

example : validate_episode_number "  007 ".data = .ok ⟨true, "", some "7".data⟩ := by decide
example : validate_episode_number "12a".data
    = .ok ⟨false, "Episode number must be numeric", none⟩ := by decide
example : validate_episode_number "²".data
    = .error "invalid literal for int() with base 10: '²'" := by decide
example : validate_hosts "DJ A,DJ B".data = ⟨true, "", some "DJ A, DJ B".data⟩ := by decide
example : validate_hosts " a ,, b".data
    = ⟨false, "Hosts must be comma-separated with space after comma (e.g., 'DJ A, DJ B')",
      none⟩ := by decide

/-- Numeric value of an ASCII digit character. -/
def digitVal (c : Char) : Nat := c.toNat - 48

/-- The day field of CPython `strptime`: the regex alternatives
`3[01]`, `[12]\d`, `0[1-9]`, `[1-9]`, `  [1-9]` tried in that order; each
successful alternative yields the parsed value and the rest of the input. -/
def parseDayAlts (l : Str) : List (Nat × Str) :=
  (match l with
    | '3' :: c :: r => if c = '0' ∨ c = '1' then [(30 + digitVal c, r)] else []
    | _ => [])
  ++ (match l with
    | a :: c :: r =>
      if (a = '1' ∨ a = '2') ∧ c.isDigit then [(10 * digitVal a + digitVal c, r)] else []
    | _ => [])
  ++ (match l with
    | '0' :: c :: r => if c.isDigit ∧ c ≠ '0' then [(digitVal c, r)] else []
    | _ => [])
  ++ (match l with
    | a :: r => if a.isDigit ∧ a ≠ '0' then [(digitVal a, r)] else []
    | _ => [])
  ++ (match l with
    | ' ' :: a :: r => if a.isDigit ∧ a ≠ '0' then [(digitVal a, r)] else []
    | _ => [])

/-- The month field of CPython `strptime`: `1[0-2]`, `0[1-9]`, `[1-9]`. -/
def parseMonthAlts (l : Str) : List (Nat × Str) :=
  (match l with
    | '1' :: c :: r => if c = '0' ∨ c = '1' ∨ c = '2' then [(10 + digitVal c, r)] else []
    | _ => [])
  ++ (match l with
    | '0' :: c :: r => if c.isDigit ∧ c ≠ '0' then [(digitVal c, r)] else []
    | _ => [])
  ++ (match l with
    | a :: r => if a.isDigit ∧ a ≠ '0' then [(digitVal a, r)] else []
    | _ => [])

/-- The year field of CPython `strptime` for `%Y`: exactly four digits. -/
def parseYear4 (l : Str) : Option (Nat × Str) :=
  match l with
  | a :: b :: c :: d :: r =>
    if a.isDigit ∧ b.isDigit ∧ c.isDigit ∧ d.isDigit then
      some (1000 * digitVal a + 100 * digitVal b + 10 * digitVal c + digitVal d, r)
    else none
  | _ => none

/-- Backtracking match of the `%d.%m.%Y` pattern from the start of the
string, in the regex engine's alternative order; returns the fields and the
unconsumed rest of the input. -/
def parseDMY (l : Str) : Option ((Nat × Nat × Nat) × Str) :=
  (parseDayAlts l).findSome? fun dc =>
    match dc.snd with
    | '.' :: r2 =>
      (parseMonthAlts r2).findSome? fun mc =>
        match mc.snd with
        | '.' :: r4 =>
          match parseYear4 r4 with
          | some (y, r5) => some ((dc.fst, mc.fst, y), r5)
          | none => none
        | _ => none
    | _ => none

/-- Gregorian leap year, as `datetime` uses it. -/
def isLeapYear (y : Nat) : Bool := y % 4 = 0 ∧ (y % 100 ≠ 0 ∨ y % 400 = 0)

/-- Length of a month, as `datetime` validates the day against. -/
def daysInMonth (y m : Nat) : Nat :=
  if m = 2 then (if isLeapYear y then 29 else 28)
  else if m = 4 ∨ m = 6 ∨ m = 9 ∨ m = 11 then 30
  else 31

/-- `datetime.strptime(s, "%d.%m.%Y")`: match the pattern against the whole
string, then build the date, rejecting impossible calendar dates; the error
strings are the ones CPython raises. -/
def strptimeDMY (l : Str) : Except String (Nat × Nat × Nat) :=
  match parseDMY l with
  | none =>
    .error ("time data '" ++ String.mk l ++ "' does not match format '%d.%m.%Y'")
  | some (dmy, rest) =>
    if rest ≠ [] then .error ("unconverted data remains: " ++ String.mk rest)
    else if dmy.2.2 = 0 then .error "year 0 is out of range"
    else if dmy.1 > daysInMonth dmy.2.2 dmy.2.1 then .error "day is out of range for month"
    else .ok dmy

/-- Two-digit zero-padded rendering (`strftime` `%d` / `%m`). -/
def pad2 (n : Nat) : Str := if n < 10 then '0' :: (Nat.repr n).data else (Nat.repr n).data

/-- `dt.strftime("%d.%m.%Y")`: day and month zero-padded to two digits, the
year printed in decimal (glibc prints the year unpadded; it has four digits
for every year from 1000 on). -/
def strftimeDMY (d m y : Nat) : Str :=
  pad2 d ++ ".".data ++ pad2 m ++ ".".data ++ (Nat.repr y).data

/-- `MP3TaggerEngine.get_broadcast_date` (lines 337-346): empty input is
rejected; otherwise the stripped input is parsed with
`strptime("%d.%m.%Y")` and echoed back through `strftime("%d.%m.%Y")`. -/
def get_broadcast_date (date_str : Str) : ValidationResult Str :=
  if pyStrip date_str = [] then ⟨false, "Broadcast date is required", none⟩
  else
    match strptimeDMY (pyStrip date_str) with
    | .ok dmy => ⟨true, "", some (strftimeDMY dmy.1 dmy.2.1 dmy.2.2)⟩
    | .error e => ⟨false, "Invalid date format. Use DD.MM.YYYY: " ++ e, none⟩

example : get_broadcast_date "29.02.2024".data = ⟨true, "", some "29.02.2024".data⟩ := by
  decide
example : get_broadcast_date "29.02.2023".data
    = ⟨false, "Invalid date format. Use DD.MM.YYYY: day is out of range for month", none⟩ := by
  decide
example : get_broadcast_date "1.1.2024".data = ⟨true, "", some "01.01.2024".data⟩ := by
  decide
example : get_broadcast_date "12.13.2024".data
    = ⟨false,
      "Invalid date format. Use DD.MM.YYYY: time data '12.13.2024' does not match format '%d.%m.%Y'",
      none⟩ := by decide

/-- The `MP3Tags` named tuple (lines 35-40). -/
structure MP3Tags where
  title : Str
  artist : Str
  album : Str
  track_number : Str
  composer : Str
deriving DecidableEq

/-- Abstract cover-art bytes (the payload the image library produces). -/
abbrev CoverBytes := List Nat

/-- A frame stored in the ID3 container: a text frame, or an attached
picture (`APIC`). -/
inductive ID3Frame
  | text (s : Str)
  | apic (mime : String) (pictureType : Nat) (desc : String) (data : CoverBytes)
deriving DecidableEq

/-- The tag container: frames keyed by name, as `mutagen.id3.ID3` exposes
them. -/
abbrev ID3State := List (String × ID3Frame)

/-- Dictionary-style `id3[key] = frame`: replace the frame under `key`, or
append it. -/
def setFrame (st : ID3State) (k : String) (f : ID3Frame) : ID3State :=
  if st.any (fun kv => kv.fst = k) then
    st.map (fun kv => if kv.fst = k then (k, f) else kv)
  else st ++ [(k, f)]

/-- An exception raised by a library call: its message and whether it is an
instance of `mutagen.id3.error` — the class the writer's `except` clause
names.  `ID3NoHeaderError` is such an instance (handled separately by the
inner `except`); `mutagen.MutagenError` itself and `OSError` from the
underlying file I/O are not instances of `mutagen.id3.error`, so for them
`isId3Error` is `false`. -/
structure PyExc where
  msg : String
  isId3Error : Bool
deriving DecidableEq, Repr

/-- Outcome of `ID3(mp3_path)`: a loaded container, `ID3NoHeaderError`
(the file has no tag, an empty container is created instead), or a raised
exception. -/
inductive ID3Load
  | loaded (st : ID3State)
  | noHeader
  | raised (e : PyExc)

/-- The container contents `write_id3_tags` builds before saving
(lines 481-502): set the five text frames — the composer frame only when
the date is non-empty — remove every `APIC` frame, then add the new cover
as the single `APIC` frame when cover bytes were supplied (`if cover_data:`
is false for `None` and for empty bytes). -/
def write_id3_tags_state (st0 : ID3State) (tags : MP3Tags)
    (cover_data : Option CoverBytes) : ID3State :=
  let s1 := setFrame st0 "TIT2" (.text tags.title)
  let s2 := setFrame s1 "TPE1" (.text tags.artist)
  let s3 := setFrame s2 "TALB" (.text tags.album)
  let s4 := setFrame s3 "TRCK" (.text tags.track_number)
  let s5 := if tags.composer ≠ [] then setFrame s4 "TCOM" (.text tags.composer) else s4
  let s6 := s5.filter (fun kv => !(kv.fst.startsWith "APIC"))
  match cover_data with
  | some d => if d ≠ [] then s6 ++ [("APIC:Cover", .apic "image/jpeg" 3 "Cover" d)] else s6
  | none => s6

/-- `MP3TaggerEngine.write_id3_tags` (lines 472-507).  The container load
and the final `id3.save` are the library effects; their outcomes are the
`load` and `saveRes` parameters.  The surrounding `try` has a single
`except error as e` clause, so an exception raised by either call is
converted to a failure result carrying the original message *only when it
is an instance of `mutagen.id3.error`*; any other exception — a plain
`mutagen.MutagenError`, or an `OSError` from the file I/O — propagates out
of the function, modelled as the `.error` case.  `ID3NoHeaderError` from
the load is caught separately and an empty container is used. -/
def write_id3_tags (load : ID3Load) (saveRes : ID3State → Except PyExc Unit)
    (tags : MP3Tags) (cover_data : Option CoverBytes) :
    Except PyExc (ValidationResult Unit) :=
  match load with
  | .raised e =>
    if e.isId3Error then .ok ⟨false, "Error writing ID3 tags: " ++ e.msg, none⟩
    else .error e
  | .loaded st0 =>
    match saveRes (write_id3_tags_state st0 tags cover_data) with
    | .ok _ => .ok ⟨true, "", none⟩
    | .error e =>
      if e.isId3Error then .ok ⟨false, "Error writing ID3 tags: " ++ e.msg, none⟩
      else .error e
  | .noHeader =>
    match saveRes (write_id3_tags_state [] tags cover_data) with
    | .ok _ => .ok ⟨true, "", none⟩
    | .error e =>
      if e.isId3Error then .ok ⟨false, "Error writing ID3 tags: " ++ e.msg, none⟩
      else .error e

/-- The input fields, in the order `validate_all_inputs` checks them. -/
inductive InputField
  | file | hosts | showName | episode | date | cover
deriving DecidableEq, Repr

/-- The raw field values `get_input_values` hands to `validate_all_inputs`. -/
structure InputValues where
  hosts : Str
  show_name : Str
  episode : Str
  episode_title : Str
  date : Str
  cover : Str
deriving DecidableEq

/-- The dictionary `validate_all_inputs` returns on success
(lines 1228-1237). -/
structure ValidatedData where
  hosts : Str
  show_name : Str
  episode : Str
  date : Str
  episode_title : Str
  cover_path : Option Str
  hosts_warning : String
  episode_warning : String
deriving DecidableEq

/-- The episode-number result in the branches where its validator returned
normally (the fallback arm is unreachable there: the success dictionary is
only built after `validate_episode_number` returned `.ok`). -/
def episodeResultOk (v : InputValues) : ValidationResult Str :=
  match validate_episode_number v.episode with
  | .ok r => r
  | .error _ => ⟨false, "", none⟩

/-- The success value of `validate_all_inputs`, built from the validators'
normalized outputs. -/
def validatedOf (v : InputValues) : ValidatedData :=
  { hosts := (validate_hosts v.hosts).value.getD []
    show_name := pyStrip v.show_name
    episode := (episodeResultOk v).value.getD []
    date := (get_broadcast_date v.date).value.getD []
    episode_title := pyStrip v.episode_title
    cover_path := if v.cover ≠ [] then some v.cover else none
    hosts_warning := (validate_hosts v.hosts).message
    episode_warning := (episodeResultOk v).message }

/-- `MP3TaggerGUI.validate_all_inputs` (lines 1182-1237), instrumented with
the list of fields whose check actually runs, in order.  `fileValid` is the
outcome of the filesystem test `file_path.exists() and suffix == ".mp3"`
(line 1186) and `coverRes` the outcome of `process_cover_art` (the image
library); both are effects outside the pure engine.  Widget styling calls
are dropped.  Nothing catches a `ValueError` raised by
`validate_episode_number`, so it propagates out of `validate_all_inputs`
(the `.error` case). -/
def validate_all_inputs (fileValid : Bool) (v : InputValues)
    (coverRes : ValidationResult CoverBytes) :
    Except String (List InputField × ValidationResult ValidatedData) :=
  if !fileValid then
    .ok ([.file],
      ⟨false, "Please select a valid MP3 file using the 'Select MP3 File' button.", none⟩)
  else
    let hosts_result := validate_hosts v.hosts
    if !hosts_result.success then .ok ([.file, .hosts], ⟨false, hosts_result.message, none⟩)
    else if pyStrip v.show_name = [] then
      .ok ([.file, .hosts, .showName], ⟨false, "Show Name cannot be empty.", none⟩)
    else
      match validate_episode_number v.episode with
      | .error e => .error e
      | .ok episode_result =>
        if !episode_result.success then
          .ok ([.file, .hosts, .showName, .episode], ⟨false, episode_result.message, none⟩)
        else
          let date_result := get_broadcast_date v.date
          if !date_result.success then
            .ok ([.file, .hosts, .showName, .episode, .date],
              ⟨false, "Broadcast date error: " ++ date_result.message, none⟩)
          else if v.cover ≠ [] then
            if !coverRes.success then
              .ok ([.file, .hosts, .showName, .episode, .date, .cover],
                ⟨false, coverRes.message, none⟩)
            else
              .ok ([.file, .hosts, .showName, .episode, .date, .cover],
                ⟨true, "", some (validatedOf v)⟩)
          else
            .ok ([.file, .hosts, .showName, .episode, .date], ⟨true, "", some (validatedOf v)⟩)

/-- Specification-side description of one field check, independent of the
others: `.ok none` when the field passes, `.ok (some r)` with that field's
failure result when it fails, `.error e` when the check itself raises (only
the episode-number check can). -/
def fieldFailure (fileValid : Bool) (v : InputValues)
    (coverRes : ValidationResult CoverBytes) :
    InputField → Except String (Option (ValidationResult ValidatedData))
  | .file =>
    .ok (if fileValid then none
      else some ⟨false, "Please select a valid MP3 file using the 'Select MP3 File' button.", none⟩)
  | .hosts =>
    .ok (if (validate_hosts v.hosts).success then none
      else some ⟨false, (validate_hosts v.hosts).message, none⟩)
  | .showName =>
    .ok (if pyStrip v.show_name = [] then some ⟨false, "Show Name cannot be empty.", none⟩
      else none)
  | .episode =>
    match validate_episode_number v.episode with
    | .error e => .error e
    | .ok r => .ok (if r.success then none else some ⟨false, r.message, none⟩)
  | .date =>
    .ok (if (get_broadcast_date v.date).success then none
      else some ⟨false, "Broadcast date error: " ++ (get_broadcast_date v.date).message, none⟩)
  | .cover => .ok (if coverRes.success then none else some ⟨false, coverRes.message, none⟩)

/-- The fixed validation order of the specification:
file → contributors → show → episode number → date → cover (the cover check
exists only when a cover path was supplied). -/
def checkOrder (v : InputValues) : List InputField :=
  [.file, .hosts, .showName, .episode, .date] ++ (if v.cover ≠ [] then [.cover] else [])

/-- Specification-side first-failure semantics: run the checks in order,
stop at the first failing field with that field's own failure result, and
never look at a later field; a check that raises aborts the run the same
way. -/
def firstFailRun (check : InputField → Except String (Option (ValidationResult ValidatedData)))
    (ok : ValidationResult ValidatedData) :
    List InputField → Except String (List InputField × ValidationResult ValidatedData)
  | [] => .ok ([], ok)
  | f :: rest =>
    match check f with
    | .error e => .error e
    | .ok (some r) => .ok ([f], r)
    | .ok none =>
      match firstFailRun check ok rest with
      | .error e => .error e
      | .ok tail => .ok (f :: tail.fst, tail.snd)

/-- Specification-side model of multi-field validation, written from the
spec's words: the checks of `checkOrder`, stopped at the first failure. -/
def validate_all_inputs_spec (fileValid : Bool) (v : InputValues)
    (coverRes : ValidationResult CoverBytes) :
    Except String (List InputField × ValidationResult ValidatedData) :=
  firstFailRun (fieldFailure fileValid v coverRes) ⟨true, "", some (validatedOf v)⟩
    (checkOrder v)

/-- The filesystem actions the save path can perform.  `copyBackup` is the
backup copy the specification describes (`shutil`-style copy to
`<original>.original`); the other four are the actions
`process_operation` actually invokes. -/
inductive FsEvent
  | statTarget
  | copyBackup (dst : Str)
  | processCover
  | writeTags
  | renameTo (newName : Str) (ok : Bool)
deriving DecidableEq, Repr

/-- `MP3TaggerGUI.generate_save_report` (lines 1276-1288). -/
def generate_save_report (success : Bool) (message : String)
    (new_filepath : Option Str) (cover_embedded : Bool) : String :=
  if success then
    "✅ " ++ message
      ++ (match new_filepath with
          | some p => "\n✅ Renamed to: " ++ String.mk p
          | none => "")
      ++ (if cover_embedded then "\n✅ Cover art embedded (auto-resized/converted to JPEG)"
          else "")
  else "❌ " ++ message

/-- The save branch of `MP3TaggerGUI.process_operation` (lines 1342-1374),
entered after validation and the empty-field confirmations: check the target
(`validate_operation`, a filesystem stat), process the cover when a cover
path is present, write the tags, then rename.  The engine calls touching
the filesystem or the libraries enter as outcome parameters (`opRes`,
`coverRes`, `tagRes`, `renameRes`), and the returned list records which
filesystem actions ran, in order. -/
def process_operation_save (new_filename : Str) (cover_path : Option Str)
    (opRes : ValidationResult Unit) (coverRes : ValidationResult CoverBytes)
    (tagRes : ValidationResult Unit) (renameRes : ValidationResult Str) :
    List FsEvent × String :=
  if !opRes.success then ([.statTarget], "❌ " ++ opRes.message)
  else
    match cover_path with
    | some _ =>
      if !coverRes.success then ([.statTarget, .processCover], "❌ " ++ coverRes.message)
      else
        let cover_data := coverRes.value
        if !tagRes.success then
          ([.statTarget, .processCover, .writeTags], "❌ " ++ tagRes.message)
        else if renameRes.success then
          ([.statTarget, .processCover, .writeTags, .renameTo new_filename true],
            generate_save_report true "File tagged successfully" renameRes.value
              (match cover_data with | some d => d ≠ [] | none => false))
        else
          ([.statTarget, .processCover, .writeTags, .renameTo new_filename false],
            generate_save_report false renameRes.message none false)
    | none =>
      if !tagRes.success then ([.statTarget, .writeTags], "❌ " ++ tagRes.message)
      else if renameRes.success then
        ([.statTarget, .writeTags, .renameTo new_filename true],
          generate_save_report true "File tagged successfully" renameRes.value false)
      else
        ([.statTarget, .writeTags, .renameTo new_filename false],
          generate_save_report false renameRes.message none false)

/-- Where the audio file lives after a list of filesystem actions: only a
successful rename moves it (within its directory). -/
def resultingName (orig : Str) (evs : List FsEvent) : Str :=
  evs.foldl (fun n e => match e with | .renameTo m true => m | _ => n) orig

/-! ### Shared lemmas about the character-list primitives -/

lemma exists_append_dropWhile (p : Char → Bool) (l : Str) :
    ∃ t, l = t ++ l.dropWhile p := by
  induction l with
  | nil => exact ⟨[], rfl⟩
  | cons c r ih =>
    by_cases hc : p c
    · obtain ⟨t, ht⟩ := ih
      exact ⟨c :: t, by simpa [List.dropWhile_cons, hc] using congrArg (c :: ·) ht⟩
    · exact ⟨[], by simp [List.dropWhile_cons, hc]⟩

lemma head_dropWhile_not (p : Char → Bool) (l : Str) {c : Char} {r : Str}
    (h : l.dropWhile p = c :: r) : p c = false := by
  induction l with
  | nil => simp at h
  | cons a t ih =>
    by_cases ha : p a
    · exact ih (by simpa [List.dropWhile_cons, ha] using h)
    · rw [List.dropWhile_cons, if_neg (by simpa using ha)] at h
      cases h
      simpa using ha

lemma mem_of_mem_dropWhile (p : Char → Bool) (l : Str) {c : Char}
    (h : c ∈ l.dropWhile p) : c ∈ l := by
  obtain ⟨t, ht⟩ := exists_append_dropWhile p l
  rw [ht]
  exact List.mem_append_right t h

lemma reverse_dropTrailWhile (p : Char → Bool) (l : Str) :
    (dropTrailWhile p l).reverse = l.reverse.dropWhile p := by
  simp [dropTrailWhile]

lemma exists_append_dropTrailWhile (p : Char → Bool) (l : Str) :
    ∃ u, l = dropTrailWhile p l ++ u := by
  obtain ⟨t, ht⟩ := exists_append_dropWhile p l.reverse
  refine ⟨t.reverse, ?_⟩
  have := congrArg List.reverse ht
  simpa [dropTrailWhile] using this

lemma mem_of_mem_dropTrailWhile (p : Char → Bool) (l : Str) {c : Char}
    (h : c ∈ dropTrailWhile p l) : c ∈ l := by
  obtain ⟨u, hu⟩ := exists_append_dropTrailWhile p l
  rw [hu]
  exact List.mem_append_left u h

lemma map_id_of_mem {f : Char → Char} {l : Str} (h : ∀ c ∈ l, f c = c) : l.map f = l := by
  induction l with
  | nil => rfl
  | cons c r ih =>
    simp only [List.map_cons, h c (by simp)]
    rw [ih (fun d hd => h d (by simp [hd]))]

lemma get?_set_ne {α : Type} (l : List α) (n i : Nat) (x : α) (h : i ≠ n) :
    (l.set n x).get? i = l.get? i := by
  induction l generalizing n i with
  | nil => simp
  | cons c r ih =>
    cases n with
    | zero =>
      cases i with
      | zero => exact absurd rfl h
      | succ j => simp
    | succ m =>
      cases i with
      | zero => simp
      | succ j => simpa using ih m j (fun hj => h (by simp [hj]))

lemma set_get?_eq {α : Type} {l : List α} {n : Nat} {a : α} (h : l.get? n = some a) :
    l.set n a = l := by
  induction l generalizing n with
  | nil => simp
  | cons c r ih =>
    cases n with
    | zero =>
      simp only [List.get?_cons_zero, Option.some.injEq] at h
      simp [h]
    | succ m =>
      simp only [List.get?_cons_succ] at h
      simp [ih h]

lemma get?_pyIndex {l : List Str} {a : Str} (h : a ∈ l) :
    l.get? (pyIndex l a) = some a := by
  induction l with
  | nil => simp at h
  | cons c r ih =>
    by_cases hc : c = a
    · simp [pyIndex, hc]
    · have : a ∈ r := by
        rcases List.mem_cons.mp h with h' | h'
        · exact absurd h'.symm hc
        · exact h'
      simp only [pyIndex, if_neg hc, List.get?_cons_succ]
      exact ih this

/-- The produced name ends in a whitespace character (the situation in which
a second sanitizer pass would strip further). -/
def endsInWhitespace (l : Str) : Bool :=
  match l.reverse with
  | [] => false
  | c :: _ => pyIsSpace c

/-! ### C3 — idempotence of the filename sanitizer -/

/-- C3 (counterexample): `sanitize_filename` is not idempotent as claimed:
on `"a ."` one pass yields `"a "` (the trailing-dot strip exposes a
trailing space) and a second pass yields `"a"`. -/
theorem sanitize_filename_not_idempotent :
    sanitize_filename (sanitize_filename "a .".data) ≠ sanitize_filename "a .".data := by
  decide

/-- C3 (amended): `sanitize_filename` is idempotent on every input whose
sanitized form does not end in whitespace; the only way a second pass can
differ is that stripping trailing periods exposed trailing whitespace. -/
theorem sanitize_filename_idempotent_of_no_trailing_space (l : Str)
    (h : endsInWhitespace (sanitize_filename l) = false) :
    sanitize_filename (sanitize_filename l) = sanitize_filename l := by
  have hmem : ∀ c ∈ sanitize_filename l, replaceBadFilenameChar c = c := by
    intro c hc
    have h1 : c ∈ pyStrip (l.map replaceBadFilenameChar) :=
      mem_of_mem_dropTrailWhile _ _ hc
    have h2 : c ∈ l.map replaceBadFilenameChar := by
      unfold pyStrip at h1
      exact mem_of_mem_dropWhile _ _ (mem_of_mem_dropTrailWhile _ _ h1)
    obtain ⟨d, _, rfl⟩ := List.mem_map.mp h2
    by_cases hb : isBadFilenameChar d
    · simp [replaceBadFilenameChar, hb]
    · simp [replaceBadFilenameChar, hb]
  have hmap : (sanitize_filename l).map replaceBadFilenameChar = sanitize_filename l :=
    map_id_of_mem hmem
  have hlead : (sanitize_filename l).dropWhile pyIsSpace = sanitize_filename l := by
    cases hel : sanitize_filename l with
    | nil => simp
    | cons c r =>
      obtain ⟨u1, hu1⟩ :=
        exists_append_dropTrailWhile (fun c => c = '.') (pyStrip (l.map replaceBadFilenameChar))
      obtain ⟨u2, hu2⟩ :=
        exists_append_dropTrailWhile pyIsSpace
          ((l.map replaceBadFilenameChar).dropWhile pyIsSpace)
      have hdw : (l.map replaceBadFilenameChar).dropWhile pyIsSpace = c :: (r ++ u1 ++ u2) := by
        have : pyStrip (l.map replaceBadFilenameChar) = (c :: r) ++ u1 := by
          rw [← hel]
          exact hu1
        rw [hu2]
        unfold pyStrip at this
        rw [this]
        simp
      have hc : pyIsSpace c = false := head_dropWhile_not pyIsSpace _ hdw
      simp [List.dropWhile_cons, hc]
  have htrail : dropTrailWhile pyIsSpace (sanitize_filename l) = sanitize_filename l := by
    unfold dropTrailWhile
    cases hr : (sanitize_filename l).reverse with
    | nil =>
      have : sanitize_filename l = [] := by
        simpa using congrArg List.reverse hr
      simp [this]
    | cons c r =>
      have hc : pyIsSpace c = false := by
        unfold endsInWhitespace at h
        rw [hr] at h
        exact h
      rw [List.dropWhile_cons, if_neg (by simp [hc]), ← hr]
      simp
  have hrdot : dropTrailWhile (fun c => c = '.') (sanitize_filename l) = sanitize_filename l := by
    unfold dropTrailWhile
    cases hr : (sanitize_filename l).reverse with
    | nil =>
      have : sanitize_filename l = [] := by
        simpa using congrArg List.reverse hr
      simp [this]
    | cons c r =>
      have hrev : (sanitize_filename l).reverse
          = (pyStrip (l.map replaceBadFilenameChar)).reverse.dropWhile (fun c => c = '.') :=
        reverse_dropTrailWhile _ _
      have hc : (c = '.' : Bool) = false := by
        have := head_dropWhile_not (fun c => decide (c = '.'))
          (pyStrip (l.map replaceBadFilenameChar)).reverse (by rw [← hrev, hr])
        simpa using this
      rw [List.dropWhile_cons, if_neg (by simpa using hc), ← hr]
      simp
  conv_lhs => rw [sanitize_filename, hmap, pyStrip, hlead, htrail, hrdot]

/-- C3 (witness): a concrete input on which the amended idempotence theorem
applies. -/
theorem sanitize_filename_idempotent_witness :
    endsInWhitespace (sanitize_filename "My Show - 3.mp3".data) = false ∧
      sanitize_filename (sanitize_filename "My Show - 3.mp3".data)
        = sanitize_filename "My Show - 3.mp3".data :=
  ⟨by decide, sanitize_filename_idempotent_of_no_trailing_space _ (by decide)⟩

/-! ### C2 — the 100-character truncation bound -/

/-- C2 (evidence of the code bug): at the spec's own end-to-end instance
(show `"My Show"`, episode `"3"`, a 200-character episode title,
contributors `"A, B"`, date `"01.01.2024"`) the filename is truncated, but
its pre-extension length is 101, one more than `SOUNDCLOUD_MAX_TITLE`:
the ellipsis is appended after the remaining budget was already used in
full, so the result exceeds the limit the code itself names
("truncated … to fit 100-character limit"). -/
theorem generate_filename_exceeds_limit :
    (generate_filename "My Show".data "3".data (List.replicate 200 'T')
        "A, B".data "01.01.2024".data).snd = true
      ∧ (generate_filename "My Show".data "3".data (List.replicate 200 'T')
          "A, B".data "01.01.2024".data).fst.length = 105
      ∧ (generate_filename "My Show".data "3".data (List.replicate 200 'T')
          "A, B".data "01.01.2024".data).fst.drop 101 = ".mp3".data
      ∧ SOUNDCLOUD_MAX_TITLE + ".mp3".data.length
          < (generate_filename "My Show".data "3".data (List.replicate 200 'T')
              "A, B".data "01.01.2024".data).fst.length := by
  refine ⟨by decide, by decide, by decide, by decide⟩

/-! ### C10 — empty episode title never truncates -/

/-- C10: with an empty episode title `generate_filename` never truncates:
the flag is `false` and the filename is the sanitized join of the parts,
untouched by any length limit — and the pre-extension length can exceed
100, as the 120-character show in the second conjunct shows. -/
theorem generate_filename_empty_title :
    (∀ show_name episode hosts date : Str,
        generate_filename show_name episode [] hosts date
          = (sanitize_filename
              (joinSep sepDash (build_filename_parts show_name episode [] hosts date))
                ++ ".mp3".data,
             false))
      ∧ (generate_filename (List.replicate 120 'a') [] [] [] "01.01.2024".data).snd = false
      ∧ (generate_filename (List.replicate 120 'a') [] [] []
          "01.01.2024".data).fst.length = 137
      ∧ SOUNDCLOUD_MAX_TITLE + ".mp3".data.length
          < (generate_filename (List.replicate 120 'a') [] [] [] "01.01.2024".data).fst.length := by
  refine ⟨?_, by decide, by decide, by decide⟩
  intro show_name episode hosts date
  unfold generate_filename generate_filename_core
  simp

/-! ### C5 — truncation touches only the episode-title segment -/

/-- C5 (counterexample): when another segment's text equals the episode
title — here the show name equals the 49-character title — truncation
replaces the *show* segment (index 0 of the parts list holds the truncated
text, no longer the show name), so the claim's "including the case where
another segment's text is equal to the episode title" fails. -/
theorem truncation_replaces_show_segment :
    (generate_filename_core (List.replicate 49 'X') [] (List.replicate 49 'X') []
        "01.01.2024".data).fst.get? 0 ≠ some (List.replicate 49 'X')
      ∧ (build_filename_parts (List.replicate 49 'X') [] (List.replicate 49 'X') []
          "01.01.2024".data).get? 0 = some (List.replicate 49 'X') := by
  refine ⟨by decide, by decide⟩

/-- C5 (amended): provided the episode title is non-empty and differs from
each of the other fields, `generate_filename` only ever rewrites the
episode-title entry of the parts list: the result is the built parts list
with at most the entry at the title's index replaced, and every other index
is unchanged. -/
theorem truncation_only_touches_title (show_name episode episode_title hosts date : Str)
    (ht : episode_title ≠ [])
    (h1 : show_name ≠ episode_title) (h2 : episode ≠ episode_title)
    (h3 : hosts ≠ episode_title) (h4 : date ≠ episode_title) :
    ∃ t',
      (generate_filename_core show_name episode episode_title hosts date).fst
          = (build_filename_parts show_name episode episode_title hosts date).set
              (pyIndex (build_filename_parts show_name episode episode_title hosts date)
                episode_title) t'
        ∧ ∀ i,
            i ≠ pyIndex (build_filename_parts show_name episode episode_title hosts date)
                  episode_title →
              (generate_filename_core show_name episode episode_title hosts date).fst.get? i
                = (build_filename_parts show_name episode episode_title hosts date).get? i := by
  have hmem : episode_title ∈ build_filename_parts show_name episode episode_title hosts date := by
    unfold build_filename_parts
    simp [ht]
  have hget :
      (build_filename_parts show_name episode episode_title hosts date).get?
          (pyIndex (build_filename_parts show_name episode episode_title hosts date)
            episode_title)
        = some episode_title := get?_pyIndex hmem
  unfold generate_filename_core
  rw [if_pos ⟨ht, hmem⟩]
  cases htr : (truncate_episode_title
      (build_filename_parts show_name episode episode_title hosts date) episode_title).snd with
  | true =>
    refine ⟨(truncate_episode_title
        (build_filename_parts show_name episode episode_title hosts date) episode_title).fst,
      by simp [htr], ?_⟩
    intro i hi
    simp only [htr, if_true]
    exact get?_set_ne _ _ _ _ hi
  | false =>
    refine ⟨episode_title, ?_, ?_⟩
    · simp only [htr, Bool.false_eq_true, if_false]
      exact (set_get?_eq hget).symm
    · intro i hi
      simp [htr]

/-- C5 (witness): the amended frame theorem applied at a concrete truncating
instance (a 120-character title, all other fields distinct from it). -/
theorem truncation_only_touches_title_witness :
    ∃ t',
      (generate_filename_core "My Show".data "3".data (List.replicate 120 'T') []
          "01.01.2024".data).fst
          = (build_filename_parts "My Show".data "3".data (List.replicate 120 'T') []
              "01.01.2024".data).set
              (pyIndex (build_filename_parts "My Show".data "3".data (List.replicate 120 'T') []
                "01.01.2024".data) (List.replicate 120 'T')) t'
        ∧ ∀ i,
            i ≠ pyIndex (build_filename_parts "My Show".data "3".data (List.replicate 120 'T') []
                  "01.01.2024".data) (List.replicate 120 'T') →
              (generate_filename_core "My Show".data "3".data (List.replicate 120 'T') []
                  "01.01.2024".data).fst.get? i
                = (build_filename_parts "My Show".data "3".data (List.replicate 120 'T') []
                    "01.01.2024".data).get? i :=
  truncation_only_touches_title "My Show".data "3".data (List.replicate 120 'T') []
    "01.01.2024".data (by decide) (by decide) (by decide) (by decide) (by decide)

/-! ### C7 — broadcast-date validation -/

/-- A string in `DD.MM.YYYY` form: exactly two digits, a dot, two digits, a
dot and four digits (the form the claim says is accepted exclusively). -/
def isDDMMYYYY (l : Str) : Bool :=
  match l with
  | [d1, d2, '.', m1, m2, '.', y1, y2, y3, y4] =>
    d1.isDigit ∧ d2.isDigit ∧ m1.isDigit ∧ m2.isDigit
      ∧ y1.isDigit ∧ y2.isDigit ∧ y3.isDigit ∧ y4.isDigit
  | _ => false

/-- C7 (counterexample): `get_broadcast_date` accepts `"1.1.2024"`, which is
not in `DD.MM.YYYY` form (strptime's `%d` and `%m` also match single
digits), and canonicalizes it to `"01.01.2024"`; so the claim's "accepts
exactly strings … in DD.MM.YYYY form" fails. -/
theorem get_broadcast_date_accepts_short_form :
    (get_broadcast_date "1.1.2024".data).success = true
      ∧ isDDMMYYYY (pyStrip "1.1.2024".data) = false
      ∧ get_broadcast_date "1.1.2024".data = ⟨true, "", some "01.01.2024".data⟩ := by
  refine ⟨by decide, by decide, by decide⟩

/-- C7 (amended): `get_broadcast_date` rejects blank input as mandatory;
it accepts real calendar dates whose day and month have one or two digits
and whose year has exactly four (zero-padding day and month in the canonical
output); `"29.02.2024"` succeeds returning the canonical text, while
`"29.02.2023"` and `"31.02.2024"` fail with the day-out-of-range message. -/
theorem get_broadcast_date_spec :
    (∀ s : Str, pyStrip s = [] →
        get_broadcast_date s = ⟨false, "Broadcast date is required", none⟩)
      ∧ get_broadcast_date "29.02.2024".data = ⟨true, "", some "29.02.2024".data⟩
      ∧ get_broadcast_date "29.02.2023".data
          = ⟨false, "Invalid date format. Use DD.MM.YYYY: day is out of range for month", none⟩
      ∧ get_broadcast_date "31.02.2024".data
          = ⟨false, "Invalid date format. Use DD.MM.YYYY: day is out of range for month", none⟩
      ∧ get_broadcast_date "31.12.2024".data = ⟨true, "", some "31.12.2024".data⟩ := by
  refine ⟨?_, by decide, by decide, by decide, by decide⟩
  intro s hs
  unfold get_broadcast_date
  rw [if_pos hs]

/-- C7 (witness): the blank-input clause of the amended theorem applied at
the whitespace-only string `"  "`. -/
theorem get_broadcast_date_spec_witness :
    pyStrip "  ".data = []
      ∧ get_broadcast_date "  ".data = ⟨false, "Broadcast date is required", none⟩ :=
  ⟨by decide, get_broadcast_date_spec.1 "  ".data (by decide)⟩

/-! ### C8 — contributor (hosts) validation -/

/-- C8: `validate_hosts` accepts empty input with an empty normalized value
and a non-empty advisory message; it normalizes `"DJ A,DJ B"` to
`"DJ A, DJ B"`; and in general, for non-blank input, it succeeds exactly
when the whitespace-collapsed, comma-normalized input matches
`^[^,]+(, [^,]+)*$`, in which case the normalized string is the value. -/
theorem validate_hosts_spec :
    validate_hosts "".data = ⟨true, "No hosts provided", some []⟩
      ∧ "No hosts provided" ≠ ""
      ∧ validate_hosts "DJ A,DJ B".data = ⟨true, "", some "DJ A, DJ B".data⟩
      ∧ ∀ l : Str, pyStrip l ≠ [] →
          ((validate_hosts l).success = hostsPattern (collapseWs (subCommaWs (pyStrip l)))
            ∧ ((validate_hosts l).success = true →
                (validate_hosts l).value = some (collapseWs (subCommaWs (pyStrip l))))) := by
  refine ⟨by decide, by decide, by decide, ?_⟩
  intro l hl
  unfold validate_hosts
  rw [if_neg hl]
  by_cases hp : hostsPattern (collapseWs (subCommaWs (pyStrip l)))
  · rw [if_pos hp]
    exact ⟨by simpa using hp, fun _ => rfl⟩
  · rw [if_neg hp]
    constructor
    · simpa using (Bool.not_eq_true _).mp hp |>.symm
    · intro hfalse
      simp at hfalse

/-- C8 (witness): the general clause of the hosts theorem applied at the
non-blank input `" DJ  A , DJ B "`, whose normalization collapses the inner
whitespace run and repairs the separator. -/
theorem validate_hosts_spec_witness :
    pyStrip " DJ  A , DJ B ".data ≠ []
      ∧ (validate_hosts " DJ  A , DJ B ".data).success
          = hostsPattern (collapseWs (subCommaWs (pyStrip " DJ  A , DJ B ".data)))
      ∧ ((validate_hosts " DJ  A , DJ B ".data).success = true →
          (validate_hosts " DJ  A , DJ B ".data).value
            = some (collapseWs (subCommaWs (pyStrip " DJ  A , DJ B ".data)))) :=
  ⟨by decide, (validate_hosts_spec.2.2.2 " DJ  A , DJ B ".data (by decide)).1,
    (validate_hosts_spec.2.2.2 " DJ  A , DJ B ".data (by decide)).2⟩

/-! ### C4 — exceptions escape the engine boundary -/

/-- C4 (evidence of the code bug): exceptions do cross the component
boundary, contrary to the claim and to the spec's stated intent.
First conjunct: `validate_episode_number "²"` raises a `ValueError` out of
the function — `"²".isdigit()` is true, so the guard passes, and
`int("²")` then fails, with nothing catching it.  Second conjunct: a save
failure that is not an instance of `mutagen.id3.error` (an `OSError`, or a
plain `MutagenError`) propagates out of `write_id3_tags`, because the
`except error` clause does not match it.  Third conjunct: the conversion
the claim describes does happen for genuine `mutagen.id3.error` failures,
whose cause text is carried in the failure result. -/
theorem engine_exceptions_escape :
    validate_episode_number "²".data
        = .error "invalid literal for int() with base 10: '²'"
      ∧ write_id3_tags (.loaded [])
          (fun _ => .error ⟨"[Errno 13] Permission denied", false⟩)
          ⟨[], [], [], [], []⟩ none
          = .error ⟨"[Errno 13] Permission denied", false⟩
      ∧ write_id3_tags (.raised ⟨"unparseable frame", true⟩)
          (fun _ => .ok ()) ⟨[], [], [], [], []⟩ none
          = .ok ⟨false, "Error writing ID3 tags: unparseable frame", none⟩ := by
  refine ⟨by decide, by decide, by decide⟩

/-! ### C1 — there is no backup step -/

/-- C1 (counterexample): a fully successful save run mutates the file (the
tag write and the rename both appear in the action list and the outcome is
the success report) yet contains no backup copy at all, refuting the claim
that a backup of the original is created before any mutation. -/
theorem save_mode_run_has_no_backup :
    ((process_operation_save "New Name.mp3".data none ⟨true, "", none⟩ ⟨true, "", none⟩
          ⟨true, "", none⟩ ⟨true, "", some "New Name.mp3".data⟩).fst.any
        (fun e => match e with | .copyBackup _ => true | _ => false)) = false
      ∧ FsEvent.writeTags
          ∈ (process_operation_save "New Name.mp3".data none ⟨true, "", none⟩ ⟨true, "", none⟩
              ⟨true, "", none⟩ ⟨true, "", some "New Name.mp3".data⟩).fst
      ∧ (process_operation_save "New Name.mp3".data none ⟨true, "", none⟩ ⟨true, "", none⟩
            ⟨true, "", none⟩ ⟨true, "", some "New Name.mp3".data⟩).snd
          = "✅ File tagged successfully\n✅ Renamed to: New Name.mp3" := by
  refine ⟨by decide, by decide, by decide⟩

/-- C1 (amended): the save branch of `process_operation` performs no backup
whatsoever: no run, whatever the outcomes of the target check, cover
processing, tag write and rename, ever contains a backup-copy action — the
pipeline mutates the original file directly. -/
theorem save_mode_never_backs_up (new_filename : Str) (cover_path : Option Str)
    (opRes : ValidationResult Unit) (coverRes : ValidationResult CoverBytes)
    (tagRes : ValidationResult Unit) (renameRes : ValidationResult Str) (dst : Str) :
    FsEvent.copyBackup dst
      ∉ (process_operation_save new_filename cover_path opRes coverRes tagRes renameRes).fst := by
  unfold process_operation_save
  rcases cover_path with _ | p <;>
    by_cases h1 : opRes.success <;> by_cases h2 : coverRes.success <;>
    by_cases h3 : tagRes.success <;> by_cases h4 : renameRes.success <;>
    simp [h1, h2, h3, h4]

/-! ### C6 — a failed tag write stops the pipeline before the rename -/

/-- C6: when the save branch reaches the tag write (target check passed,
cover either absent or processed) and the tag write fails, no rename is
attempted — no rename action of any kind appears in the run — the reported
outcome is the tag writer's error, and the file keeps its original name. -/
theorem tag_write_failure_stops_pipeline (orig new_filename : Str) (cover_path : Option Str)
    (opRes : ValidationResult Unit) (coverRes : ValidationResult CoverBytes)
    (tagRes : ValidationResult Unit) (renameRes : ValidationResult Str)
    (hop : opRes.success = true)
    (hcover : cover_path = none ∨ coverRes.success = true)
    (htag : tagRes.success = false) :
    (∀ m ok, FsEvent.renameTo m ok
        ∉ (process_operation_save new_filename cover_path opRes coverRes tagRes renameRes).fst)
      ∧ (process_operation_save new_filename cover_path opRes coverRes tagRes renameRes).snd
          = "❌ " ++ tagRes.message
      ∧ resultingName orig
          (process_operation_save new_filename cover_path opRes coverRes tagRes renameRes).fst
          = orig := by
  unfold process_operation_save
  rcases hcover with hc | hc
  · subst hc
    simp [hop, htag, resultingName]
  · rcases cover_path with _ | p
    · simp [hop, htag, resultingName]
    · simp [hop, hc, htag, resultingName]

/-- C6 (witness): the theorem applied at a concrete failing tag write with
no cover. -/
theorem tag_write_failure_stops_pipeline_witness :
    (∀ m ok, FsEvent.renameTo m ok
        ∉ (process_operation_save "New Name.mp3".data none ⟨true, "", none⟩ ⟨true, "", none⟩
            ⟨false, "Error writing ID3 tags: boom", none⟩ ⟨true, "", none⟩).fst)
      ∧ (process_operation_save "New Name.mp3".data none ⟨true, "", none⟩ ⟨true, "", none⟩
            ⟨false, "Error writing ID3 tags: boom", none⟩ ⟨true, "", none⟩).snd
          = "❌ " ++ (⟨false, "Error writing ID3 tags: boom", none⟩ : ValidationResult Unit).message
      ∧ resultingName "Old Name.mp3".data
          (process_operation_save "New Name.mp3".data none ⟨true, "", none⟩ ⟨true, "", none⟩
            ⟨false, "Error writing ID3 tags: boom", none⟩ ⟨true, "", none⟩).fst
          = "Old Name.mp3".data :=
  tag_write_failure_stops_pipeline "Old Name.mp3".data "New Name.mp3".data none
    ⟨true, "", none⟩ ⟨true, "", none⟩ ⟨false, "Error writing ID3 tags: boom", none⟩
    ⟨true, "", none⟩ (by decide) (Or.inl rfl) (by decide)

/-! ### C9 — multi-field validation stops at the first failing field -/

/-- C9: `validate_all_inputs` equals the specification-side first-failure
run: the checks execute in the fixed order file → contributors → show →
episode number → date → cover, the reported failure is the earliest failing
field's own failure, and no later field is checked. -/
theorem validate_all_inputs_first_failure (fileValid : Bool) (v : InputValues)
    (coverRes : ValidationResult CoverBytes) :
    validate_all_inputs fileValid v coverRes = validate_all_inputs_spec fileValid v coverRes := by
  rcases he : validate_episode_number v.episode with e | er
  · by_cases h1 : fileValid <;>
      by_cases h2 : (validate_hosts v.hosts).success <;>
      by_cases h3 : pyStrip v.show_name = [] <;>
      by_cases h6 : v.cover = [] <;>
      simp [validate_all_inputs, validate_all_inputs_spec, checkOrder, firstFailRun,
        fieldFailure, he, h1, h2, h3, h6]
  · by_cases h1 : fileValid <;>
      by_cases h2 : (validate_hosts v.hosts).success <;>
      by_cases h3 : pyStrip v.show_name = [] <;>
      by_cases h4 : er.success <;>
      by_cases h5 : (get_broadcast_date v.date).success <;>
      by_cases h6 : v.cover = [] <;>
      by_cases h7 : coverRes.success <;>
      simp [validate_all_inputs, validate_all_inputs_spec, checkOrder, firstFailRun,
        fieldFailure, he, h1, h2, h3, h4, h5, h6, h7]
